import Mathlib

/-!
Verification of the entry synchronization and deduplication subsystem of
the toggl2clockify migrator (the `converter` package).

Python dictionaries with a fixed key set are embedded as Lean structures
whose `Option` fields record key presence (`none` = key absent or JSON
null, as noted per field).  Functions that can raise a Python exception
(KeyError, AttributeError, RuntimeError) return `Option`/`Except`, with
`none`/`error` standing for the raised exception.  Floating point rate
constants are embedded as rationals.
-/

/- ------------------------------------------------------------------ -/
/- converter/clockify/retval.py                                        -/
/- ------------------------------------------------------------------ -/

/-- `RetVal` enum from converter/clockify/retval.py. -/
inductive RetVal where
  | OK
  | ERR
  | EXISTS
  | FORBIDDEN
deriving DecidableEq, Repr

/- ------------------------------------------------------------------ -/
/- converter/clockify/entry.py : Entry, to_api_dict, diff_entry,       -/
/- is_duplicate_entry                                                  -/
/- ------------------------------------------------------------------ -/

/-- The state of an `Entry` object after `process_ids` has run: `start`
and `end` have been serialized to strings (`self.start = self.start.isoformat()
+ self.timezone`), and the resolved ids are in place.  `end_` is `none`
when the source entry had `end = None`; `proj_id`, `task_id`, `tag_ids`
are `none` when unresolved (entry.py lines 77-81); `user_id` is the id
resolved by `api.get_user_id` (entry.py line 90). -/
structure Entry where
  start : String
  end_ : Option String
  description : String
  billable : Bool
  proj_id : Option String
  task_id : Option String
  tag_ids : Option (List String)
  user_id : String
deriving DecidableEq, Repr

/-- The dictionary produced by `Entry.to_api_dict` (entry.py lines
116-140).  A field of value `none` means the key is absent from the
dict.  The Python code inserts keys `start`, `billable`, `description`,
optionally `projectId` and `taskId`, always `end`, and optionally
`tagIds`; it never inserts a `userId` key, which the `userId` slot
records as `none`. -/
structure ApiDict where
  start : String
  billable : Bool
  description : String
  projectId : Option String
  taskId : Option String
  end_ : String
  tagIds : Option (List String)
  userId : Option String
deriving DecidableEq, Repr

/-- `Entry.to_api_dict` (entry.py lines 116-140): always `start`,
`billable`, `description`; `projectId` iff `self.proj_id is not None`;
`taskId` iff `self.task_id is not None`; `end` set to `self.end` when
present else `self.start`; `tagIds` iff `self.tag_ids is not None`.
No `userId` key is ever written. -/
def Entry.to_api_dict (e : Entry) : ApiDict :=
  { start := e.start
    billable := e.billable
    description := e.description
    projectId := e.proj_id
    taskId := e.task_id
    end_ := e.end_.getD e.start
    tagIds := e.tag_ids
    userId := none }

/-- The `timeInterval` sub-dictionary of a candidate time entry returned
by the duplicate-check query.  `start = none` means the sub-dict lacks
the `start` key. -/
structure TimeIntervalDict where
  start : Option String
deriving DecidableEq, Repr

/-- A candidate entry dictionary as returned by `get_time_entries`.
Outer `none` on a field means the key is absent.  For `tagIds` the outer
`Option` is key presence and the inner `Option` is JSON null versus an
id list (`other["tagIds"] or []` maps null to the empty list). -/
structure Candidate where
  timeInterval : Option TimeIntervalDict
  projectId : Option String
  description : Option String
  userId : Option String
  tagIds : Option (Option (List String))
deriving DecidableEq, Repr

/-- Python `set(a) == set(b)` on lists of strings. -/
def setEq (a b : List String) : Bool :=
  a.all (fun x => b.contains x) && b.all (fun x => a.contains x)

/-- `Entry.diff_entry` (entry.py lines 142-174).  The checks run in
source order; each `let`-bound continuation is the code that follows a
check that fell through.  `none` models a raised `KeyError`: looking up
a key that the dictionary does not have.  Note `this = self.to_api_dict()`
has no `userId` key, so `this["userId"]` (entry.py line 161) raises
whenever control reaches it. -/
def Entry.diff_entry (e : Entry) (other : Candidate) : Option Bool :=
  let this := e.to_api_dict
  -- entry.py lines 166-174: tag comparison and final `return False`
  let tagStep : Option Bool :=
    match other.tagIds with
    | none => none                     -- KeyError: other["tagIds"]
    | some raw =>
      let this_tag_ids := this.tagIds.getD []   -- this["tagIds"] if "tagIds" in this else []
      let other_tag_ids := raw.getD []          -- other["tagIds"] or []
      if setEq this_tag_ids other_tag_ids then some false else some true
  -- entry.py line 161: this["userId"] != other["userId"]
  let userStep : Option Bool :=
    match this.userId with
    | none => none                     -- KeyError: this["userId"] (key never written)
    | some tuid =>
      match other.userId with
      | none => none                   -- KeyError: other["userId"]
      | some ouid => if tuid ≠ ouid then some true else tagStep
  -- entry.py line 157: this["description"] != other["description"]
  let descStep : Option Bool :=
    match other.description with
    | none => none                     -- KeyError: other["description"]
    | some odesc => if this.description ≠ odesc then some true else userStep
  -- entry.py line 153: "projectId" in this and this["projectId"] != other["projectId"]
  let projStep : Option Bool :=
    match this.projectId with
    | none => descStep                 -- "projectId" not in this: short-circuit
    | some pid =>
      match other.projectId with
      | none => none                   -- KeyError: other["projectId"]
      | some opid => if pid ≠ opid then some true else descStep
  -- entry.py line 148: this["start"] != other["timeInterval"]["start"]
  match other.timeInterval with
  | none => none                       -- KeyError: other["timeInterval"]
  | some ti =>
    match ti.start with
    | none => none                     -- KeyError: ...["start"]
    | some ostart => if this.start ≠ ostart then some true else projStep

/-- `is_duplicate_entry` (entry.py lines 10-18): returns true as soon as
`diff_entry` reports "not different" for some candidate; an exception in
`diff_entry` propagates (`none`). -/
def is_duplicate_entry (source : Entry) : List Candidate → Option Bool
  | [] => some false
  | entry :: rest =>
    match source.diff_entry entry with
    | none => none
    | some different => if !different then some true else is_duplicate_entry source rest

/-- `ClockifyAPI.add_entry` (api.py lines 675-708), with the network
abstracted: `queryOk` is whether `get_time_entries` succeeded and
`webEntries` its result; `createOk` is whether the create POST would
succeed and `createJson` its response body.  The returned triple is
(`RetVal`, payload returned to the caller, whether the create POST was
issued); `none` models an uncaught exception escaping `add_entry`. -/
def add_entry (entry : Entry) (queryOk : Bool) (webEntries : List Candidate)
    (createOk : Bool) (createJson : String) : Option (RetVal × Option String × Bool) :=
  if queryOk = false then
    some (RetVal.ERR, none, false)
  else
    match is_duplicate_entry entry webEntries with
    | none => none
    | some true => some (RetVal.EXISTS, none, false)
    | some false =>
      if createOk then some (RetVal.OK, some createJson, true)
      else some (RetVal.ERR, none, true)

/-- The concrete entry of spec section 8 after id resolution. -/
def entryDesign : Entry :=
  { start := "2023-01-01T09:00:00Z"
    end_ := some "2023-01-01T10:00:00Z"
    description := "design review"
    billable := true
    proj_id := some "p1"
    task_id := none
    tag_ids := some ["tg1"]
    user_id := "u1" }

/-- A candidate identical to `entryDesign` in start, project,
description, user and tags, with every key present. -/
def candSame : Candidate :=
  { timeInterval := some { start := some "2023-01-01T09:00:00Z" }
    projectId := some "p1"
    description := some "design review"
    userId := some "u1"
    tagIds := some (some ["tg1"]) }

/-- A candidate agreeing with `entryDesign` on start, project and
description but owned by a different user. -/
def candOtherUser : Candidate :=
  { timeInterval := some { start := some "2023-01-01T09:00:00Z" }
    projectId := some "p1"
    description := some "design review"
    userId := some "u2"
    tagIds := some (some ["tg1"]) }

/- ------------------------------------------------------------------ -/
/- converter/clockify/api.py : multi_get_request (lines 131-173)       -/
/- ------------------------------------------------------------------ -/

/-- An item of a paginated response; the loop reads only its `id` key
(api.py lines 152-153). -/
structure Item where
  id : Nat
deriving DecidableEq, Repr

/-- The loop body of `ClockifyAPI.multi_get_request` (api.py lines
141-157) on the 200-status path, with the server abstracted as the
mapping from page number to returned page.  Returns the accumulated
data together with the number of page requests issued; `none` is
returned when the fuel runs out, so `some` results witness termination.
A page shorter than 50 is appended and ends the loop; otherwise, when
the first id of the page already occurs in the accumulated data the
page is discarded and the loop ends; otherwise the page is appended
and the next page is requested. -/
def multiGetAux (server : Nat → List Item) :
    Nat → Nat → List Item → Nat → Option (List Item × Nat)
  | 0, _, _, _ => none
  | fuel + 1, page, acc, reqs =>
    let data := server page
    if data.length < 50 then
      some (acc ++ data, reqs + 1)
    else
      match data with
      | [] => none                    -- unreachable: an empty page has length < 50
      | d :: _ =>
        if acc.any (fun x => x.id == d.id) then
          some (acc, reqs + 1)
        else
          multiGetAux server fuel (page + 1) (acc ++ data) (reqs + 1)

/-- `multi_get_request` starts at page 1 with an empty accumulator
(api.py lines 139-140). -/
def multi_get_request (server : Nat → List Item) (fuel : Nat) : Option (List Item × Nat) :=
  multiGetAux server fuel 1 [] 0

/- ------------------------------------------------------------------ -/
/- converter/clockify/cached_list.py and api.py add_client             -/
/- ------------------------------------------------------------------ -/

/-- The mutable pair held by `CachedList` (cached_list.py lines 22-24):
the cached records (reduced to their names) and the `need_resync`
flag. -/
structure CachedState where
  data : List String
  need_resync : Bool
deriving DecidableEq, Repr

/-- Result of one `CachedList.get_data` call: the returned list, the
state after the call, and whether a fresh fetch was performed. -/
structure GetDataResult where
  data : List String
  state : CachedState
  fetched : Bool
deriving DecidableEq, Repr

/-- Python keyword-argument binding: a call raises `TypeError` before
the callee's body runs when some keyword argument name is not among the
callee's parameter names ("unexpected keyword argument"). -/
def callBindsKeywords (paramNames kwNames : List String) : Bool :=
  kwNames.all (fun k => paramNames.contains k)

/-- `CachedList.refresh_data` (cached_list.py lines 44-60): the multi
branch calls `api.multi_get_request(url, sudo=True)` and the other
branch calls `api.request(url, typ="GET", sudo=True)`, but the
converter signatures are `multi_get_request(self, url, email)` (api.py
line 131) and `request(self, url, email, body=None, typ="GET")` (api.py
line 175) — no method of the converter `ClockifyAPI` has a `sudo`
parameter, so both calls raise `TypeError` at the call site (`none`).
`serverData` is the response the callee would have produced had the
call bound. -/
def refresh_data (multi : Bool) (serverData : List String) : Option (List String) :=
  if multi then
    if callBindsKeywords ["url", "email"] ["sudo"] then some serverData else none
  else
    if callBindsKeywords ["url", "email", "body", "typ"] ["typ", "sudo"] then
      some serverData
    else none

/-- `CachedList.get_data` (cached_list.py lines 35-41): when
`need_resync` is set, `refresh_data` runs, then the flag is cleared and
the stored data returned; a `TypeError` raised inside `refresh_data`
propagates (`none`) before the flag is touched.  When the flag is
clear, the cached data is returned with no fetch. -/
def get_data (st : CachedState) (multi : Bool) (serverData : List String) :
    Option GetDataResult :=
  if st.need_resync then
    match refresh_data multi serverData with
    | none => none
    | some d => some { data := d, state := { data := d, need_resync := false }, fetched := true }
  else
    some { data := st.data, state := st, fetched := false }

/-- `ClockifyAPI.add_client` (api.py lines 245-275) after the POST
returned `status`: on a non-ok status (≥ 400), 400 maps to `EXISTS` and
anything else to `ERR`, leaving the client cache untouched; on success
the result is `OK` and the client cache `need_resync` flag is set. -/
def add_client (st : CachedState) (status : Nat) : RetVal × CachedState :=
  if ¬ status < 400 then
    if status = 400 then (RetVal.EXISTS, st) else (RetVal.ERR, st)
  else
    (RetVal.OK, { st with need_resync := true })

/- ------------------------------------------------------------------ -/
/- converter/clockify/api.py : rate limiting and the 429 retry         -/
/- ------------------------------------------------------------------ -/

/-- `ClockifyAPI.requests_per_second` (api.py line 33). -/
def requests_per_second : ℚ := 10

/-- `ClockifyAPI.time_per_request` (api.py line 34):
`1.0 / (requests_per_second)`. -/
def time_per_request : ℚ := 1 / requests_per_second

/-- The throttle sleep performed by `_request` (api.py lines 202-203):
a request whose round trip took `elapsed` sleeps the remainder of the
enforced interval `interval`, and nothing otherwise. -/
def throttle_sleep (interval elapsed : ℚ) : ℚ :=
  if elapsed < interval then interval - elapsed else 0

/-- A Python value flowing through the `request`/`_request` parameters:
the `email`/`body`/`typ` slots are dynamically typed and the 429 retry
shifts values between them. -/
inductive PyVal where
  | pstr (s : String)
  | pdict (fields : List (String × String))
  | pnone
deriving DecidableEq, Repr

/-- An `APIUser` credential record (api_user.py): the fields
`_get_api_key` reads. -/
structure APIUser where
  email : String
  token : String
deriving DecidableEq, Repr

/-- `ClockifyAPI._get_api_key` (api.py lines 120-122): `first` over the
user list compared by email, then `.token`.  When no user matches,
`first` returns Python `None` and `None.token` raises AttributeError,
modelled as `none`. -/
def get_api_key (users : List APIUser) (email : PyVal) : Option String :=
  (users.find? (fun u => PyVal.pstr u.email == email)).map (fun u => u.token)

/-- One outbound HTTP send as performed by `_request` (api.py lines
191-198): the URL, the `X-Api-Key` token, the body and the method
actually transmitted. -/
structure SentRequest where
  url : String
  token : String
  body : PyVal
  typ : PyVal
deriving DecidableEq, Repr

/-- The combined `request`/`_request` pair (api.py lines 175-214) over
an abstract server assigning a status code to the n-th send.  One call
of `guardedRequest` models `ClockifyAPI.request`: `_get_api_key(email)`
(raising on no match), then `_request`, which sends the request and on
a 429 sleeps 1 s, multiplies `time_per_request` by 1.1 and re-enters
`self.request(url, body, typ)` — the original body in the `email`
parameter slot, the original method in the `body` slot and the method
defaulted to `"GET"` (api.py line 212).  Returns the send log, the
final enforced interval and the final status (`none` = an exception
escaped, or fuel ran out). -/
def guardedRequest (users : List APIUser) (statuses : Nat → Nat) :
    Nat → String → PyVal → PyVal → PyVal → List SentRequest → Nat → ℚ →
    List SentRequest × ℚ × Option Nat
  | 0, _, _, _, _, sent, _, interval => (sent, interval, none)
  | fuel + 1, url, email, body, typ, sent, idx, interval =>
    match get_api_key users email with
    | none => (sent, interval, none)     -- AttributeError inside _get_api_key
    | some token =>
      let status := statuses idx
      let sent1 := sent ++ [{ url := url, token := token, body := body, typ := typ }]
      if status = 429 then
        guardedRequest users statuses fuel url body typ (PyVal.pstr "GET")
          sent1 (idx + 1) (interval * (11 / 10))
      else
        (sent1, interval, some status)

/- ------------------------------------------------------------------ -/
/- converter/migrator.py : Clue.verify_email (lines 385-435)           -/
/- ------------------------------------------------------------------ -/

/-- A toggl workspace user as read by `TogglAPI.get_user_email`
(toggl_api.py lines 357-367). -/
structure TUser where
  id : Nat
  email : String
deriving DecidableEq, Repr

/-- A clockify workspace user as read by `get_userid_by_email`,
`get_userid_from_name` and `get_email_by_id` (api.py lines 382-416). -/
structure CUser where
  id : String
  name : String
  email : String
deriving DecidableEq, Repr

/-- `TogglAPI.get_user_email` (toggl_api.py lines 357-367): first user
with the given id, else Python `None`. -/
def get_user_email (user_id : Nat) (users : List TUser) : Option String :=
  (users.find? (fun u => u.id == user_id)).map (fun u => u.email)

/-- `ClockifyAPI.get_userid_by_email` (api.py lines 406-416): `first`
by email, returning `None` on failure — it does not raise.  The `email`
argument may itself be Python `None` (when the toggl lookup failed), in
which case no user matches. -/
def get_userid_by_email (email : Option String) (users : List CUser) : Option String :=
  (users.find? (fun u => some u.email == email)).map (fun u => u.id)

/-- `ClockifyAPI.get_userid_from_name` (api.py lines 382-392): `first`
by name, `None` on failure. -/
def get_userid_from_name (username : String) (users : List CUser) : Option String :=
  (users.find? (fun u => u.name == username)).map (fun u => u.id)

/-- `ClockifyAPI.get_email_by_id` (api.py lines 394-404): `first` by
id, `None` on failure.  The id argument may be Python `None`. -/
def get_email_by_id (user_id : Option String) (users : List CUser) : Option String :=
  (users.find? (fun u => some u.id == user_id)).map (fun u => u.email)

/-- `Clue.verify_email` (migrator.py lines 385-435).  The outer `try`
body runs `get_user_email` and `get_userid_by_email`; in the converter
code neither call raises `RuntimeError` (both return `None` on
failure), which the embedding mirrors by building the try result with
`Except.ok`.  The `except RuntimeError` handler — username match, then
the skip-unmatched flag, then the fallback email, then re-raising — is
embedded as written (migrator.py lines 395-433); `Except.error` models
an exception escaping `verify_email`. -/
def verify_email (toggl_uid : Nat) (toggl_username : String)
    (tUsers : List TUser) (cUsers : List CUser)
    (skip_inv_toggl_users : Bool) (fallback_email : Option String) :
    Except String (Option String) :=
  let tryResult : Except String (Option String) :=
    let email := get_user_email toggl_uid tUsers
    let _ := get_userid_by_email email cUsers   -- result unused; never raises
    Except.ok email
  match tryResult with
  | Except.ok email => Except.ok email
  | Except.error _ =>
    -- migrator.py lines 396-413: attempt to match user via username
    let innerResult : Except String (Option String) :=
      let c_id := get_userid_from_name toggl_username cUsers
      let email := get_email_by_id c_id cUsers
      Except.ok email
    match innerResult with
    | Except.ok email => Except.ok email
    | Except.error _ =>
      if skip_inv_toggl_users then
        Except.ok none
      else
        match fallback_email with
        | some fb => Except.ok (some fb)
        | none => Except.error "user not resolvable"

/- ------------------------------------------------------------------ -/
/- converter/toggl_api.py : get_reports / _get_reports (lines 224-288) -/
/- ------------------------------------------------------------------ -/

/-- A reports-endpoint response: 400 (benign end-of-data) or a page of
rows plus the server-side `total_count`. -/
inductive ReportResp where
  | badRequest
  | ok (data : List String) (total : Nat)
deriving DecidableEq, Repr

/-- One callback invocation `callback(entries, total)`; the first
component is `none` for a `callback(None, 0)` window-boundary marker
and `some page` otherwise. -/
abbrev ReportCall := Option (List String) × Nat

/-- The page loop of `TogglAPI._get_reports` (toggl_api.py lines
260-288) for one date chunk `(since, untl)`, recording the callback
invocations it performs: starting from page 1, a 400 status ends the
chunk, an empty page ends the chunk, and every non-empty page `data`
produces `callback(data, total_cnt)`.  `pfuel` bounds the number of
page requests; the chunk loop of the source has no other exit. -/
def chunkCalls (server : Int → Int → Nat → ReportResp) (since untl : Int) :
    Nat → Nat → List ReportCall
  | 0, _ => []
  | pfuel + 1, page =>
    match server since untl page with
    | ReportResp.badRequest => []
    | ReportResp.ok data total =>
      if data.length = 0 then []
      else (some data, total) :: chunkCalls server since untl pfuel (page + 1)

/-- The date-chunk loop of `TogglAPI.get_reports` (toggl_api.py lines
224-253), recording all callback invocations over the whole range:
`cur_stop = next_start + 300` days; when `cur_stop > until` the final
chunk is `(next_start, until)` and the loop ends after it; otherwise
the chunk `(next_start, cur_stop)` is processed and the loop continues
at `cur_stop`.  No `callback(None, 0)` is issued anywhere. -/
def getReportsCalls (server : Int → Int → Nat → ReportResp) (pfuel : Nat) :
    Nat → Int → Int → List ReportCall
  | 0, _, _ => []
  | fuel + 1, next_start, untl =>
    let cur_stop := next_start + 300
    if untl < cur_stop then
      chunkCalls server next_start untl pfuel 1
    else
      chunkCalls server next_start cur_stop pfuel 1 ++
        getReportsCalls server pfuel fuel cur_stop untl

/-- A server with exactly one non-empty page per date window. -/
def onePageServer : Int → Int → Nat → ReportResp :=
  fun _ _ page => if page = 1 then ReportResp.ok ["row"] 1 else ReportResp.ok [] 0

/-- An entry identical to `entryDesign` except that the source gave no
end timestamp and no tags. -/
def entryNoEnd : Entry :=
  { entryDesign with end_ := none, tag_ids := none }

/-- A candidate agreeing with `entryDesign` on everything except the
start timestamp. -/
def candOtherStart : Candidate :=
  { candSame with timeInterval := some { start := some "2023-01-01T11:00:00Z" } }

/-- A candidate dictionary with no `timeInterval` key at all. -/
def candNoTimeInterval : Candidate :=
  { timeInterval := none, projectId := none, description := none,
    userId := none, tagIds := none }

/-- `diff_entry` can only raise or report a difference: it never
returns `False`.  The user-id check reads `this["userId"]` from the
entry's own `to_api_dict` result, which has no such key, so every run
that survives the start, project and description checks raises. -/
lemma diff_entry_no_false (e : Entry) (c : Candidate) :
    e.diff_entry c ≠ some false := by
  obtain ⟨ti, pid, desc, uid, tags⟩ := c
  simp only [Entry.diff_entry, Entry.to_api_dict]
  rcases ti with _ | ⟨ts⟩
  · simp
  rcases ts with _ | s0
  · simp
  by_cases h1 : e.start = s0
  case neg => simp [h1]
  cases hp : e.proj_id with
  | none =>
    rcases desc with _ | d0
    · simp [h1]
    by_cases h3 : e.description = d0
    · simp [h1, h3]
    · simp [h1, h3]
  | some pe =>
    rcases pid with _ | p0
    · simp [h1]
    by_cases h2 : pe = p0
    · rcases desc with _ | d0
      · simp [h1, h2]
      by_cases h3 : e.description = d0
      · simp [h1, h2, h3]
      · simp [h1, h2, h3]
    · simp [h1, h2]

/- ================================================================== -/
/- Claim theorems                                                      -/
/- ================================================================== -/

/-- C1.  The claim states that `add_entry` returns `(EXISTS, None)` and
issues no create POST when some candidate matches (`diff_entry` false).
The code cannot do this: on the duplicate scenario — the same entry
resubmitted while the duplicate-check query returns one candidate
identical in start/project/description/user/tags — `diff_entry` raises
`KeyError` on `this["userId"]` (entry.py line 161, a key `to_api_dict`
never writes), the exception propagates through `is_duplicate_entry`
and `add_entry` (`none`), and no `EXISTS` outcome is produced.  With no
candidates the create POST is issued as the claim expects. -/
theorem add_entry_duplicate_raises :
    add_entry entryDesign true [candSame] true "resp" = none ∧
    is_duplicate_entry entryDesign [candSame] = none ∧
    add_entry entryDesign true [] true "resp" =
      some (RetVal.OK, some "resp", true) := by
  decide

/-- C2.  The claim states `diff_entry` returns true iff one of five
clauses holds, among them "the candidate's owning user id differs from
the entry's resolved user id".  The code instead evaluates
`this["userId"]` on its own api dict, which has no `userId` key, so any
comparison that reaches the user clause raises `KeyError` instead of
returning a verdict: a candidate differing only in user id yields an
exception (`none`), not true, and an identical candidate yields an
exception, not false.  Only the start clause behaves as claimed. -/
theorem diff_entry_user_clause_raises :
    entryDesign.diff_entry candOtherUser = none ∧
    entryDesign.diff_entry candSame = none ∧
    entryDesign.diff_entry candOtherStart = some true := by
  decide

/-- C5.  The claim states the 429 retry re-issues the same request —
same URL, same credentials, same body, same method.  The code's retry
(api.py line 212) calls `self.request(url, body, typ)` against the
signature `request(url, email, body=None, typ="GET")`, so the original
body lands in the email parameter, the method lands in the body and the
method defaults to GET; `_get_api_key` then finds no user whose email
equals a dict and raises AttributeError.  Concretely: one POST is sent,
the 429 answer triggers the sleep and the 1.1 interval bump, and the
call then raises — no second request is ever sent, although the server
would have answered 201. -/
theorem rate_limit_retry_arg_shift :
    guardedRequest [{ email := "admin@x", token := "tok" }]
      (fun i => if i = 0 then 429 else 201) 5 "u"
      (PyVal.pstr "admin@x") (PyVal.pdict [("name", "Acme")]) (PyVal.pstr "POST")
      [] 0 time_per_request =
    ([{ url := "u", token := "tok", body := PyVal.pdict [("name", "Acme")],
        typ := PyVal.pstr "POST" }], time_per_request * (11 / 10), none) := by
  rfl

/-- C6.  The claim states that a source user whose email has no Target
account and whose username matches no Target user resolves to the
configured fallback email.  In the code the fallback is unreachable:
`verify_email` relies on `get_userid_by_email` raising when the email
is absent (the inline comment says so), but the converter version of
that function returns `None` instead of raising (api.py lines 406-416),
so the `except RuntimeError` handler never runs and `verify_email`
returns the source-side email.  User bob (toggl id 7, source email
bob@src) with an empty Target user list and fallback catchall@co yields
bob@src, not catchall@co. -/
theorem verify_email_fallback_dead :
    verify_email 7 "bob" [{ id := 7, email := "bob@src" }] []
      false (some "catchall@co") = Except.ok (some "bob@src") := by
  rfl

/-- C7 counterexample.  The claim states that between consecutive date
chunks the streamer invokes `callback(None, 0)` as a window-boundary
marker.  Over a range of 400 days (two 300-day chunks) and a server
with one non-empty page per window, the recorded callback sequence is
two data pages and contains no `(None, 0)` marker: the converter
`get_reports` loop has no such call. -/
theorem get_reports_no_window_marker :
    getReportsCalls onePageServer 5 5 0 400 =
      [(some ["row"], 1), (some ["row"], 1)] ∧
    (none, 0) ∉ getReportsCalls onePageServer 5 5 0 400 := by
  decide

/-- C8.  `to_api_dict` always emits `start`, `billable` and
`description`; emits `end` equal to the given end when one exists and
to `start` otherwise; emits `projectId` exactly when a project id was
resolved and `taskId` exactly when a task id was resolved; and emits
`tagIds` exactly when tags were given, so a given-but-empty tag list is
serialized as `[]` while absent tags omit the key. -/
theorem to_api_dict_fields (e : Entry) :
    e.to_api_dict.start = e.start ∧
    e.to_api_dict.billable = e.billable ∧
    e.to_api_dict.description = e.description ∧
    (∀ x, e.end_ = some x → e.to_api_dict.end_ = x) ∧
    (e.end_ = none → e.to_api_dict.end_ = e.start) ∧
    e.to_api_dict.projectId = e.proj_id ∧
    e.to_api_dict.taskId = e.task_id ∧
    e.to_api_dict.tagIds = e.tag_ids := by
  refine ⟨rfl, rfl, rfl, ?_, ?_, rfl, rfl, rfl⟩
  · intro x hx; simp [Entry.to_api_dict, hx]
  · intro hx; simp [Entry.to_api_dict, hx]

/-- C8 witness: the zero-duration default and the explicit end, at the
two concrete entries. -/
theorem to_api_dict_fields_witness :
    entryDesign.to_api_dict.end_ = "2023-01-01T10:00:00Z" ∧
    entryNoEnd.to_api_dict.end_ = entryNoEnd.start ∧
    entryNoEnd.to_api_dict.tagIds = none :=
  ⟨(to_api_dict_fields entryDesign).2.2.2.1 _ rfl,
   (to_api_dict_fields entryNoEnd).2.2.2.2.1 rfl,
   (to_api_dict_fields entryNoEnd).2.2.2.2.2.2.2⟩

/-- C9 counterexample.  The claim states the initial enforced interval
is `1 / (requests_per_second - 1)` seconds (a one-request safety
margin, i.e. 1/9 s for the default budget of 10).  The code (api.py
line 34) computes `1.0 / requests_per_second` = 1/10 s, with no margin. -/
theorem time_per_request_no_margin :
    time_per_request ≠ 1 / (requests_per_second - 1) := by
  norm_num [time_per_request, requests_per_second]

/-- C9 amended: the initial enforced interval is exactly
`1 / requests_per_second` = 1/10 s with no safety-margin reduction, and
every request whose round trip completed in less than the enforced
interval sleeps exactly the remainder of that interval. -/
theorem time_per_request_value_and_sleep :
    time_per_request = 1 / 10 ∧
    ∀ elapsed : ℚ, elapsed < time_per_request →
      elapsed + throttle_sleep time_per_request elapsed = time_per_request := by
  refine ⟨rfl, ?_⟩
  intro e he
  simp only [throttle_sleep, if_pos he]
  ring

/-- C9 witness: a request that took no time sleeps the full 1/10 s
interval. -/
theorem time_per_request_value_and_sleep_witness :
    (0 : ℚ) + throttle_sleep time_per_request 0 = time_per_request :=
  time_per_request_value_and_sleep.2 0 (by norm_num [time_per_request, requests_per_second])

/-- C10 counterexample.  The claim states the `KeyError` branch of the
duplicate check is unreachable provided every candidate carries the
`timeInterval.start`, `description`, `userId` (and, for entries with a
project, `projectId`) keys.  `candSame` carries every key — including
`userId` and `tagIds` — yet `diff_entry` still raises, because before
reading the candidate's `userId` the code reads `this["userId"]` from
its own api dict, which never has that key. -/
theorem diff_entry_full_candidate_raises :
    candSame.timeInterval = some { start := some "2023-01-01T09:00:00Z" } ∧
    candSame.projectId.isSome = true ∧
    candSame.description.isSome = true ∧
    candSame.userId.isSome = true ∧
    candSame.tagIds.isSome = true ∧
    entryDesign.diff_entry candSame = none := by
  decide

/-- C10 amended: the duplicate check is partial, but over the entry's
own dict as well as the candidate's shape.  `diff_entry` unconditionally
indexes the candidate's `timeInterval` / `timeInterval.start` (raising
when absent), and whenever the start, project and description checks
all pass it raises on `this["userId"]` — a key `to_api_dict` never
writes — so `diff_entry` never returns false, for any candidate
whatsoever. -/
theorem diff_entry_partiality :
    (∀ (e : Entry) (c : Candidate), e.diff_entry c ≠ some false) ∧
    (∀ (e : Entry) (c : Candidate), c.timeInterval = none →
      e.diff_entry c = none) := by
  constructor
  · intro e c
    exact diff_entry_no_false e c
  · intro e c h
    obtain ⟨ti, pid, desc, uid, tags⟩ := c
    simp only at h
    subst h
    rfl

/-- C10 witness: the amended theorem applied at concrete inputs — a
fully-keyed candidate is never reported equal, and a candidate with no
`timeInterval` key raises. -/
theorem diff_entry_partiality_witness :
    entryDesign.diff_entry candSame ≠ some false ∧
    entryDesign.diff_entry candNoTimeInterval = none :=
  ⟨diff_entry_partiality.1 entryDesign candSame,
   diff_entry_partiality.2 entryDesign candNoTimeInterval rfl⟩

/-- A 50-item page with first id 0, for the pathological-server
witness. -/
def fullPage : List Item := (List.range 50).map Item.mk

/-- C3.  The pagination loop obeys the two stopping rules and the
repeat-id guard bounds the pathological case: (1) a page shorter than
the page size 50 is appended and ends the loop at once; (2) a full page
whose first id already occurs among the accumulated items is discarded
and ends the loop at once; (3) against a server that always answers
with 50 items whose first id never changes, the fetch returns after
exactly 2 page requests with the first page as its result, for every
fuel bound of at least 2 — it does not loop forever. -/
theorem multi_get_request_termination :
    (∀ (s : Nat → List Item) (fuel page reqs : Nat) (acc : List Item),
        (s page).length < 50 →
        multiGetAux s (fuel + 1) page acc reqs = some (acc ++ s page, reqs + 1)) ∧
    (∀ (s : Nat → List Item) (fuel page reqs : Nat) (acc : List Item)
        (d : Item) (rest : List Item),
        s page = d :: rest → ¬ (s page).length < 50 →
        acc.any (fun x => x.id == d.id) = true →
        multiGetAux s (fuel + 1) page acc reqs = some (acc, reqs + 1)) ∧
    (∀ (s : Nat → List Item),
        (∀ p, (s p).length = 50) →
        (∀ p, (s p).head?.map Item.id = (s 1).head?.map Item.id) →
        ∀ fuel, 2 ≤ fuel → multi_get_request s fuel = some (s 1, 2)) := by
  refine ⟨?_, ?_, ?_⟩
  · intro s fuel page reqs acc h
    simp [multiGetAux, h]
  · intro s fuel page reqs acc d rest hpage hlen hany
    simp only [multiGetAux]
    rw [if_neg hlen, hpage]
    simp [hany]
  · intro s h50 hfirst fuel hfuel
    obtain ⟨k, rfl⟩ : ∃ k, fuel = k + 2 := ⟨fuel - 2, by omega⟩
    obtain ⟨d, rest, hs1⟩ : ∃ d rest, s 1 = d :: rest := by
      cases hs : s 1 with
      | nil => have := h50 1; rw [hs] at this; simp at this
      | cons a l => exact ⟨a, l, rfl⟩
    obtain ⟨d2, rest2, hs2⟩ : ∃ d rest, s 2 = d :: rest := by
      cases hs : s 2 with
      | nil => have := h50 2; rw [hs] at this; simp at this
      | cons a l => exact ⟨a, l, rfl⟩
    have hid : d2.id = d.id := by
      have h := hfirst 2
      rw [hs1, hs2] at h
      simpa using h
    have hl1 : ¬ (s 1).length < 50 := by rw [h50 1]; omega
    have hl2 : ¬ (s 2).length < 50 := by rw [h50 2]; omega
    have step1 : multiGetAux s (k + 2) 1 [] 0 = multiGetAux s (k + 1) 2 (s 1) 1 := by
      show multiGetAux s (k + 1 + 1) 1 [] 0 = _
      simp only [multiGetAux]
      rw [if_neg hl1, hs1]
      simp [← hs1]
    have step2 : multiGetAux s (k + 1) 2 (s 1) 1 = some (s 1, 2) := by
      show multiGetAux s (k + 1) 2 (s 1) 1 = _
      simp only [multiGetAux]
      rw [if_neg hl2, hs2]
      have hany : (s 1).any (fun x => x.id == d2.id) = true := by
        rw [hs1]
        simp [List.any_cons, hid]
      simp [hany]
    rw [multi_get_request, step1, step2]

/-- C3 witness: the pathological constant server, a 50-item page with
an unchanging first id, surplus fuel 7: two requests, first page
returned. -/
theorem multi_get_request_termination_witness :
    multi_get_request (fun _ => fullPage) 7 = some (fullPage, 2) :=
  multi_get_request_termination.2.2 (fun _ => fullPage)
    (fun _ => by simp [fullPage]) (fun _ => rfl) 7 (by omega)

/-- C4.  The claim states that after a successful create the next read
performs exactly one fresh fetch, clears the flag and returns a list
containing the new entity.  In the converter code no read with
`need_resync = True` can ever fetch: `refresh_data` invokes
`api.multi_get_request(url, sudo=True)` / `api.request(url, typ="GET",
sudo=True)`, and no converter `ClockifyAPI` method has a `sudo`
parameter, so the call raises `TypeError` before any fetch, the flag
stays set and no list is returned.  Concretely: `add_client` with
status 201 does return `OK` and set the flag as claimed, but the
following `get_data` raises on both the multi and the non-multi
branch — even though the server would have listed "Acme" — while a
read with the flag clear still returns the cache with no fetch. -/
theorem cache_refresh_read_raises :
    (add_client ⟨["Old"], false⟩ 201).1 = RetVal.OK ∧
    (add_client ⟨["Old"], false⟩ 201).2.need_resync = true ∧
    get_data (add_client ⟨["Old"], false⟩ 201).2 true ["Acme"] = none ∧
    get_data (add_client ⟨["Old"], false⟩ 201).2 false ["Acme"] = none ∧
    get_data ⟨["Old"], false⟩ true ["Acme"] =
      some ⟨["Old"], ⟨["Old"], false⟩, false⟩ := by
  decide

/-- Every callback recorded by the chunk page loop carries a non-empty
data page. -/
lemma chunkCalls_nonempty (server : Int → Int → Nat → ReportResp)
    (since untl : Int) :
    ∀ (pfuel page : Nat) (c : ReportCall),
      c ∈ chunkCalls server since untl pfuel page →
      ∃ d t, c = (some d, t) ∧ d ≠ [] := by
  intro pfuel
  induction pfuel with
  | zero => intro page c h; simp [chunkCalls] at h
  | succ n ih =>
    intro page c h
    cases hr : server since untl page with
    | badRequest => simp [chunkCalls, hr] at h
    | ok data total =>
      simp only [chunkCalls, hr] at h
      by_cases hz : data.length = 0
      · rw [if_pos hz] at h; simp at h
      · rw [if_neg hz] at h
        rcases List.mem_cons.mp h with h0 | h0
        · exact ⟨data, total, h0, fun he => hz (by simp [he])⟩
        · exact ih (page + 1) c h0

/-- C7 amended: within each date chunk the callback is invoked only on
non-empty pages (a 400 status or a zero-row page ends the chunk), and
no `callback(None, 0)` window-boundary marker is invoked between
chunks: every callback invocation recorded over the whole date range
carries a non-empty data page. -/
theorem get_reports_calls_all_nonempty :
    ∀ (server : Int → Int → Nat → ReportResp) (pfuel fuel : Nat)
      (start untl : Int) (c : ReportCall),
      c ∈ getReportsCalls server pfuel fuel start untl →
      ∃ d t, c = (some d, t) ∧ d ≠ [] := by
  intro server pfuel fuel
  induction fuel with
  | zero => intro start untl c h; simp [getReportsCalls] at h
  | succ n ih =>
    intro start untl c h
    simp only [getReportsCalls] at h
    by_cases hu : untl < start + 300
    · rw [if_pos hu] at h
      exact chunkCalls_nonempty server start untl pfuel 1 c h
    · rw [if_neg hu] at h
      rcases List.mem_append.mp h with h0 | h0
      · exact chunkCalls_nonempty server start (start + 300) pfuel 1 c h0
      · exact ih (start + 300) untl c h0

/-- C7 amended witness: the theorem applied to the first call recorded
over the two-chunk scenario. -/
theorem get_reports_calls_all_nonempty_witness :
    ∃ d t, ((some ["row"], 1) : ReportCall) = (some d, t) ∧ d ≠ [] :=
  get_reports_calls_all_nonempty onePageServer 5 5 0 400 (some ["row"], 1)
    (by decide)
